import Mathlib

/-!
Verification development for the Roolts virtual-environment orchestration
subsystem (backend/services and backend/routes of the repository).

The Python source is shallowly embedded: pure string-validation functions
become Lean functions on `String` / `List Char`; file contents are modelled
as byte lists (`List Nat`, each entry < 256, the UTF-8 bytes of the Python
`str`); the container engine and the database are modelled by explicit
oracle parameters (each engine call's outcome is an input) and by explicit
event traces, so temporal claims ("X is invoked before returning") become
statements about the produced trace.
-/

namespace Roolts

/-- Python whitespace characters as used by `str.strip()`. -/
def isPyWS (c : Char) : Bool :=
  c = ' ' || c = '\t' || c = '\n' || c = '\r' || c = '\x0b' || c = '\x0c'

/-- Substring test on character lists: `containsSub pat s` is true iff
`pat` occurs contiguously inside `s` (Python's `pat in s`). -/
def containsSub (pat : List Char) : List Char → Bool
  | [] => pat.isEmpty
  | c :: rest => pat.isPrefixOf (c :: rest) || containsSub pat rest

/-- Python `os.path.basename` for POSIX paths: everything after the last slash. -/
def basename (p : String) : String :=
  String.mk ((p.toList.reverse.takeWhile (fun c => c ≠ '/')).reverse)

/-- Python `s.startswith(pre)` (kernel-reducible `String.startsWith`). -/
def strStartsWith (s pre : String) : Bool := pre.toList.isPrefixOf s.toList

/-- Python `s.endswith(suf)` (kernel-reducible `String.endsWith`). -/
def strEndsWith (s suf : String) : Bool := suf.toList.isSuffixOf s.toList

/-- Python `s.lower()` for the ASCII strings used here. -/
def strToLower (s : String) : String := String.mk (s.toList.map Char.toLower)

/-! ## SecurityValidator (services/security_validator.py)

Stateless validators, embedded function-by-function from the source.
-/

/-- `SecurityValidator.ALLOWED_PACKAGE_MANAGERS`. -/
def ALLOWED_PACKAGE_MANAGERS : List String := ["npm", "yarn", "pip", "pip3", "apt-get", "apk"]

/-- `SecurityValidator.MAX_COMMAND_LENGTH`. -/
def MAX_COMMAND_LENGTH : Nat := 10000

/-- `SecurityValidator.MAX_FILE_SIZE` (10 MB). -/
def MAX_FILE_SIZE : Nat := 10 * 1024 * 1024

/-- The `dangerous_chars` list of `validate_package_name`
(`& | ; $ `` ` `` ( ) < > \n \r`; the backquote is written via its code point). -/
def PKG_DANGEROUS_CHARS : List Char :=
  ['&', '|', ';', '$', Char.ofNat 96, '(', ')', '<', '>', '\n', '\r']

/-- Allowed characters of the format regex of `validate_package_name`,
which is anchored on both sides: at-sign, ASCII letters and digits, dot,
underscore, slash, dash. -/
def isPkgFormatChar (c : Char) : Bool :=
  c = '@' || (('a' ≤ c && c ≤ 'z') || ('A' ≤ c && c ≤ 'Z')) ||
    ('0' ≤ c && c ≤ '9') || c = '.' || c = '_' || c = '/' || c = '-'

/-- `SecurityValidator.validate_package_name`: returns `(is_valid, message)`.
The checks run in source order: empty / whitespace-only, length > 214,
dangerous shell metacharacters, path traversal (`..`, `/`, `\`), then the
anchored format regex (one or more characters of `isPkgFormatChar`). -/
def validate_package_name (package_name : String) : Bool × String :=
  if package_name.toList.all isPyWS then
    (false, "Package name cannot be empty")
  else if package_name.length > 214 then
    (false, "Package name too long")
  else
    match PKG_DANGEROUS_CHARS.find? (fun c => package_name.toList.contains c) with
    | some c => (false, "Package name contains dangerous character: " ++ c.toString)
    | none =>
      if containsSub ['.', '.'] package_name.toList
          || package_name.toList.contains '/'
          || package_name.toList.contains '\\' then
        (false, "Package name contains path traversal characters")
      else if package_name.toList ≠ [] && package_name.toList.all isPkgFormatChar then
        (true, "Package name is valid")
      else
        (false, "Package name contains invalid characters")

/-- The `dangerous_paths` prefix deny-list of `validate_file_path`. -/
def DANGEROUS_PATHS : List String := ["/etc", "/proc", "/sys", "/dev", "/root", "/var/run"]

/-- `SecurityValidator.validate_file_path`: returns `(is_valid, message)`.
Checks in source order: empty / whitespace-only, absolute path outside
`/workspace`, `..` traversal, sensitive absolute prefixes, null bytes. -/
def validate_file_path (file_path : String) : Bool × String :=
  if file_path.toList.all isPyWS then
    (false, "File path cannot be empty")
  else if strStartsWith file_path "/" && !strStartsWith file_path "/workspace" then
    (false, "Absolute paths outside /workspace are not allowed")
  else if containsSub ['.', '.'] file_path.toList then
    (false, "Path traversal (..) is not allowed")
  else
    match DANGEROUS_PATHS.find? (fun d => strStartsWith file_path d) with
    | some d => (false, "Access to " ++ d ++ " is not allowed")
    | none =>
      if file_path.toList.contains (Char.ofNat 0) then
        (false, "File path contains null bytes")
      else
        (true, "File path is valid")

/-- The `dangerous_extensions` list of `validate_file_content`. -/
def DANGEROUS_EXTENSIONS : List String :=
  [".exe", ".dll", ".so", ".dylib", ".bat", ".cmd", ".com"]

/-- UTF-8 bytes of the ELF magic `\x7fELF`. -/
def ELF_MAGIC : List Nat := [0x7f, 69, 76, 70]

/-- Bytes of the PE magic `MZ`. -/
def MZ_MAGIC : List Nat := [77, 90]

/-- `SecurityValidator.validate_file_content`: size cap, executable magic
bytes, and dangerous filename extensions (case-insensitive). Content is the
UTF-8 byte list of the Python string. -/
def validate_file_content (content : List Nat) (filename : String) : Bool × String :=
  if content.length > MAX_FILE_SIZE then
    (false, "File size exceeds maximum of 10.0MB")
  else if ELF_MAGIC.isPrefixOf content || MZ_MAGIC.isPrefixOf content then
    (false, "Executable files are not allowed")
  else if DANGEROUS_EXTENSIONS.any (fun ext => strEndsWith (strToLower filename) ext) then
    (false, "File type not allowed: " ++ filename)
  else
    (true, "File content is valid")

/-- Allowed characters of `validate_environment_name`'s anchored regex
`[a-zA-Z0-9 _-]`. -/
def isEnvNameChar (c : Char) : Bool :=
  (('a' ≤ c && c ≤ 'z') || ('A' ≤ c && c ≤ 'Z')) ||
    ('0' ≤ c && c ≤ '9') || c = ' ' || c = '_' || c = '-'

/-- `SecurityValidator.validate_environment_name`: length 1..100 and the
anchored character-class regex. -/
def validate_environment_name (name : String) : Bool × String :=
  if name.length < 1 || name.length > 100 then
    (false, "Environment name must be between 1 and 100 characters")
  else if name.toList ≠ [] && name.toList.all isEnvNameChar then
    (true, "Environment name is valid")
  else
    (false, "Environment name can only contain letters, numbers, spaces, dashes, and underscores")

/-- `SecurityValidator.validate_package_manager`: membership in the fixed
allow-list. -/
def validate_package_manager (manager : String) : Bool × String :=
  if ALLOWED_PACKAGE_MANAGERS.contains manager then
    (true, "Package manager is valid")
  else
    (false, "Package manager not allowed. Allowed: npm, yarn, pip, pip3, apt-get, apk")

/-! ## Regex engine for the command deny-lists

The dangerous and warning command patterns are Python regexes compiled with
`re.IGNORECASE` and applied with `re.search`. We embed the regex language
actually used by those patterns (literals, any-char, the space class, word
boundaries, alternation, sequencing, Kleene star) and a backtracking
matcher; case-insensitivity is realised by lowercasing the subject (all
pattern literals are lower-case ASCII). -/

/-- Abstract syntax of the regex fragment used by the deny-lists. -/
inductive RE where
  | eps : RE
  | lit : Char → RE
  | anyc : RE
  | spc : RE
  | wb : RE
  | alt : RE → RE → RE
  | seq : RE → RE → RE
  | star : RE → RE
deriving DecidableEq

/-- Python's word character class for ASCII subjects: letters, digits, underscore. -/
def isWordChar (c : Char) : Bool := c.isAlphanum || c = '_'

/-- Python's whitespace class for ASCII subjects. -/
def isSpaceChar (c : Char) : Bool :=
  c = ' ' || c = '\t' || c = '\n' || c = '\r' || c = '\x0b' || c = '\x0c'

/-- Backtracking matcher: `reMatch fuel re prev rest` returns the list of
possible `(last consumed char, remaining input)` states after matching `re`
at the current position; `prev` is the character just before the position
(for word boundaries). Fuel bounds the recursion. -/
def reMatch : Nat → RE → Option Char → List Char → List (Option Char × List Char)
  | 0, _, _, _ => []
  | _ + 1, .eps, prev, rest => [(prev, rest)]
  | _ + 1, .lit _, _, [] => []
  | _ + 1, .lit c, _, x :: xs => if x = c then [(some x, xs)] else []
  | _ + 1, .anyc, _, [] => []
  | _ + 1, .anyc, _, x :: xs => if x = '\n' then [] else [(some x, xs)]
  | _ + 1, .spc, _, [] => []
  | _ + 1, .spc, _, x :: xs => if isSpaceChar x then [(some x, xs)] else []
  | _ + 1, .wb, prev, rest =>
      let lw := match prev with | none => false | some c => isWordChar c
      let rw := match rest with | [] => false | c :: _ => isWordChar c
      if lw != rw then [(prev, rest)] else []
  | fuel + 1, .alt a b, prev, rest => reMatch fuel a prev rest ++ reMatch fuel b prev rest
  | fuel + 1, .seq a b, prev, rest =>
      ((reMatch fuel a prev rest).map (fun pr => reMatch fuel b pr.1 pr.2)).flatten
  | fuel + 1, .star r, prev, rest =>
      (prev, rest) :: ((reMatch fuel r prev rest).map (fun pr =>
        if pr.2.length < rest.length then reMatch fuel (.star r) pr.1 pr.2 else [])).flatten

/-- Try to match at the current position, else advance one character
(`re.search` semantics). -/
def searchAux (fuel : Nat) (re : RE) : Option Char → List Char → Bool
  | prev, [] => !(reMatch fuel re prev []).isEmpty
  | prev, c :: rest =>
      !(reMatch fuel re prev (c :: rest)).isEmpty || searchAux fuel re (some c) rest

/-- Fuel generous enough for every deny-list pattern on the given subject. -/
def reFuel (s : List Char) : Nat := 64 * (s.length + 8)

/-- `re.search` with `re.IGNORECASE`: lowercase the subject and scan. -/
def reSearch (re : RE) (s : String) : Bool :=
  let chars := s.toList.map Char.toLower
  searchAux (reFuel chars) re none chars

/-- Literal string as a regex. -/
def rstr (s : String) : RE :=
  s.toList.foldr (fun c acc => RE.seq (RE.lit c) acc) RE.eps

/-- One or more whitespace characters. -/
def sPlus : RE := RE.seq RE.spc (RE.star RE.spc)

/-- Zero or more whitespace characters. -/
def sStar : RE := RE.star RE.spc

/-- Any characters (Python greedy dot-star, sans newline). -/
def dotStar : RE := RE.star RE.anyc

/-- A regex wrapped in word boundaries on both sides. -/
def wbd (r : RE) : RE := RE.seq RE.wb (RE.seq r RE.wb)

/-- `SecurityValidator.DANGEROUS_PATTERNS`, in registration order, each
paired with its source text (braces written via code-point escapes). -/
def DANGEROUS_PATTERNS : List (String × RE) :=
  [ ("\\b(sudo|su)\\b",
      RE.seq RE.wb (RE.seq (RE.alt (rstr "sudo") (rstr "su")) RE.wb)),
    ("\\brm\\s+-rf\\s+/",
      RE.seq RE.wb (RE.seq (rstr "rm") (RE.seq sPlus (RE.seq (rstr "-rf") (RE.seq sPlus (rstr "/")))))),
    ("\\bchmod\\s+777",
      RE.seq RE.wb (RE.seq (rstr "chmod") (RE.seq sPlus (rstr "777")))),
    ("\\bchown\\s+root",
      RE.seq RE.wb (RE.seq (rstr "chown") (RE.seq sPlus (rstr "root")))),
    ("\\bkill\\s+-9\\s+1\\b",
      RE.seq RE.wb (RE.seq (rstr "kill") (RE.seq sPlus (RE.seq (rstr "-9") (RE.seq sPlus (RE.seq (rstr "1") RE.wb)))))),
    ("\\bkillall\\s+",
      RE.seq RE.wb (RE.seq (rstr "killall") sPlus)),
    ("\\b(nmap|netcat|nc)\\b",
      RE.seq RE.wb (RE.seq (RE.alt (rstr "nmap") (RE.alt (rstr "netcat") (rstr "nc"))) RE.wb)),
    ("\\b(wget|curl).*\\|\\s*sh",
      RE.seq RE.wb (RE.seq (RE.alt (rstr "wget") (rstr "curl")) (RE.seq dotStar (RE.seq (rstr "|") (RE.seq sStar (rstr "sh")))))),
    ("\\b(wget|curl).*\\|\\s*bash",
      RE.seq RE.wb (RE.seq (RE.alt (rstr "wget") (rstr "curl")) (RE.seq dotStar (RE.seq (rstr "|") (RE.seq sStar (rstr "bash")))))),
    (":\\(\\)\\\x7b.*:\\|:",
      RE.seq (rstr ":()\x7b") (RE.seq dotStar (rstr ":|:"))),
    ("\\bdd\\s+if=/dev/zero",
      RE.seq RE.wb (RE.seq (rstr "dd") (RE.seq sPlus (rstr "if=/dev/zero")))),
    ("/etc/passwd", rstr "/etc/passwd"),
    ("/etc/shadow", rstr "/etc/shadow"),
    ("\\bsetuid\\b", wbd (rstr "setuid")),
    ("/proc/self/exe", rstr "/proc/self/exe"),
    ("/var/run/docker.sock",
      RE.seq (rstr "/var/run/docker") (RE.seq RE.anyc (rstr "sock"))),
    ("\\bmount\\b", wbd (rstr "mount")),
    ("\\bunshare\\b", wbd (rstr "unshare")) ]

/-- `SecurityValidator.WARNING_PATTERNS`, in registration order. -/
def WARNING_PATTERNS : List (String × RE) :=
  [ ("\\brm\\s+-rf", RE.seq RE.wb (RE.seq (rstr "rm") (RE.seq sPlus (rstr "-rf")))),
    ("\\brm\\s+-fr", RE.seq RE.wb (RE.seq (rstr "rm") (RE.seq sPlus (rstr "-fr")))),
    ("\\bformat\\b", wbd (rstr "format")),
    ("\\bmkfs\\b", wbd (rstr "mkfs")) ]

/-- `SecurityValidator.validate_command`: returns `(is_safe, severity,
message)`. Length cap, null-byte check, then first-match scan of the
dangerous list, then of the warning list. -/
def validate_command (command : String) : Bool × String × String :=
  if command.length > MAX_COMMAND_LENGTH then
    (false, "blocked", "Command exceeds maximum length of 10000 characters")
  else if command.toList.contains (Char.ofNat 0) then
    (false, "blocked", "Command contains null bytes")
  else
    match DANGEROUS_PATTERNS.find? (fun p => reSearch p.2 command) with
    | some p => (false, "blocked", "Command contains dangerous pattern: " ++ p.1)
    | none =>
      match WARNING_PATTERNS.find? (fun p => reSearch p.2 command) with
      | some p => (true, "warning", "Command contains potentially risky operation: " ++ p.1)
      | none => (true, "safe", "Command is safe to execute")

/-! ## Base64 (the encoding used by `FileManager.write_file`)

`write_file` pipes `base64.b64encode(content)` through `base64 -d` in the
container; we embed standard base64 over byte lists and prove the
round-trip, so the file written holds exactly the content bytes. -/

/-- The base64 alphabet. -/
def B64_ALPHABET : List Char :=
  "ABCDEFGHIJKLMNOPQRSTUVWXYZabcdefghijklmnopqrstuvwxyz0123456789+/".toList

/-- Character for a 6-bit group. -/
def b64Char (n : Nat) : Char := B64_ALPHABET.getD n '='

/-- 6-bit group of an alphabet character. -/
def b64Val (c : Char) : Nat := B64_ALPHABET.indexOf c

/-- Base64 encoding of a byte list, with padding. -/
def b64Encode : List Nat → List Char
  | [] => []
  | [a] => [b64Char (a / 4), b64Char (a % 4 * 16), '=', '=']
  | [a, b] => [b64Char (a / 4), b64Char (a % 4 * 16 + b / 16), b64Char (b % 16 * 4), '=']
  | a :: b :: c :: rest =>
      b64Char (a / 4) :: b64Char (a % 4 * 16 + b / 16) ::
        b64Char (b % 16 * 4 + c / 64) :: b64Char (c % 64) :: b64Encode rest

/-- Base64 decoding (`base64 -d`) of well-formed input. -/
def b64Decode : List Char → List Nat
  | c1 :: c2 :: c3 :: c4 :: rest =>
      if c3 = '=' then
        [b64Val c1 * 4 + b64Val c2 / 16]
      else if c4 = '=' then
        [b64Val c1 * 4 + b64Val c2 / 16, b64Val c2 % 16 * 16 + b64Val c3 / 4]
      else
        [b64Val c1 * 4 + b64Val c2 / 16, b64Val c2 % 16 * 16 + b64Val c3 / 4,
          b64Val c3 % 4 * 64 + b64Val c4] ++ b64Decode rest
  | _ => []

theorem b64Val_b64Char : ∀ n, n < 64 → b64Val (b64Char n) = n := by decide

theorem b64Char_ne_pad : ∀ n, n < 64 → b64Char n ≠ '=' := by decide

/-- Base64 round-trip on byte lists. -/
theorem b64_roundtrip : ∀ l : List Nat, (∀ b ∈ l, b < 256) → b64Decode (b64Encode l) = l
  | [], _ => rfl
  | [a], h => by
      have ha : a < 256 := h a (by simp)
      simp only [b64Encode, b64Decode, if_true]
      rw [b64Val_b64Char _ (by omega), b64Val_b64Char _ (by omega)]
      simp only [List.cons.injEq, and_true]
      omega
  | [a, b], h => by
      have ha : a < 256 := h a (by simp)
      have hb : b < 256 := h b (by simp)
      simp only [b64Encode, b64Decode]
      rw [if_neg (b64Char_ne_pad _ (by omega))]
      simp only [if_true]
      rw [b64Val_b64Char _ (by omega), b64Val_b64Char _ (by omega), b64Val_b64Char _ (by omega)]
      simp only [List.cons.injEq, and_true]
      omega
  | [a, b, c], h => by
      have ha : a < 256 := h a (by simp)
      have hb : b < 256 := h b (by simp)
      have hc : c < 256 := h c (by simp)
      simp only [b64Encode, b64Decode]
      rw [if_neg (b64Char_ne_pad _ (by omega)), if_neg (b64Char_ne_pad _ (by omega))]
      rw [b64Val_b64Char _ (by omega), b64Val_b64Char _ (by omega),
        b64Val_b64Char _ (by omega), b64Val_b64Char _ (by omega)]
      simp only [List.cons_append, List.nil_append, List.cons.injEq, and_true]
      omega
  | a :: b :: c :: d :: rest, h => by
      have ha : a < 256 := h a (by simp)
      have hb : b < 256 := h b (by simp)
      have hc : c < 256 := h c (by simp)
      have ih := b64_roundtrip (d :: rest) (fun x hx => h x (by simp at hx ⊢; tauto))
      simp only [b64Encode]
      simp only [b64Decode]
      rw [if_neg (b64Char_ne_pad _ (by omega)), if_neg (b64Char_ne_pad _ (by omega))]
      rw [b64Val_b64Char _ (by omega), b64Val_b64Char _ (by omega),
        b64Val_b64Char _ (by omega), b64Val_b64Char _ (by omega), ih]
      simp only [List.cons_append, List.nil_append, List.cons.injEq, and_true, true_and]
      omega

/-! ## FileManager (services/file_manager.py)

The in-container filesystem is modelled as a partial map from path strings
to byte lists; the shell round-trips (`echo <b64> | base64 -d > path` and
`cat path`) are modelled by their effect on that map. The outer
`execute_command` transport is assumed to deliver the shell's output
verbatim (we model the shell, not engine outages). Strings produced by
Python (validator messages, content) are represented by their UTF-8
bytes. -/

/-- UTF-8 bytes of a character. -/
def utf8Bytes (c : Char) : List Nat :=
  let n := c.toNat
  if n < 0x80 then [n]
  else if n < 0x800 then [0xC0 + n / 64, 0x80 + n % 64]
  else if n < 0x10000 then [0xE0 + n / 4096, 0x80 + n / 64 % 64, 0x80 + n % 64]
  else [0xF0 + n / 262144, 0x80 + n / 4096 % 64, 0x80 + n / 64 % 64, 0x80 + n % 64]

/-- UTF-8 bytes of a string (the `content.encode('utf-8')` of the source). -/
def strBytes (s : String) : List Nat := (s.toList.map utf8Bytes).flatten

/-- The sentinel prefix `read_file` looks for (`stdout.startswith('ERROR:')`). -/
def ERROR_MARKER : List Nat := strBytes "ERROR:"

/-- The replaced marker `'ERROR: '` (with trailing space). -/
def ERROR_MARKER_SP : List Nat := strBytes "ERROR: "

/-- Python `stdout.replace('ERROR: ', '')` at the byte level. -/
def removeErrorMarker : List Nat → List Nat
  | [] => []
  | x :: xs =>
      if ERROR_MARKER_SP.isPrefixOf (x :: xs) then removeErrorMarker (xs.drop 6)
      else x :: removeErrorMarker xs
termination_by l => l.length
decreasing_by
  · simp only [List.length_cons, List.length_drop]
    omega
  · simp

/-- The container filesystem: path string to file bytes. -/
def FS : Type := String → Option (List Nat)

/-- The empty filesystem. -/
def FS.empty : FS := fun _ => none

/-- Point update of the filesystem. -/
def FS.write (fs : FS) (p : String) (content : List Nat) : FS :=
  fun q => if q = p then some content else fs q

/-- `FileManager.write_file`: validate the path, validate the content
against the basename, then run `echo "<b64>" | base64 -d OP "<path>"` where
OP is append or truncate; the file ends up holding the base64 decode of the
base64 encoding of the content. Returns `((success, error_message), fs')`. -/
def write_file (fs : FS) (file_path : String) (content : List Nat) (append : Bool) :
    (Bool × String) × FS :=
  if (validate_file_path file_path).1 = false then
    ((false, (validate_file_path file_path).2), fs)
  else if (validate_file_content content (basename file_path)).1 = false then
    ((false, (validate_file_content content (basename file_path)).2), fs)
  else
    let decoded := b64Decode (b64Encode content)
    let newBytes := if append then ((fs file_path).getD []) ++ decoded else decoded
    ((true, ""), FS.write fs file_path newBytes)

/-- `FileManager.read_file`: validate the path, run
`cat "<path>" 2>&1 || echo "ERROR: File not found or inaccessible"`, then
report failure iff the captured stdout starts with `ERROR:` (the sentinel
convention), with the message being stdout minus the marker. Returns
`(success, content_bytes, error_bytes)`. -/
def read_file (fs : FS) (file_path : String) : Bool × List Nat × List Nat :=
  if (validate_file_path file_path).1 = false then
    (false, [], strBytes (validate_file_path file_path).2)
  else
    let stdout :=
      match fs file_path with
      | some bytes => bytes
      | none => strBytes "ERROR: File not found or inaccessible" ++ [10]
    if ERROR_MARKER.isPrefixOf stdout then
      (false, [], removeErrorMarker stdout)
    else
      (true, stdout, [])

/-- The `rm` command `delete_file` builds. -/
def rmCommand (recursive : Bool) (file_path : String) : String :=
  "rm " ++ (if recursive then "-rf" else "-f") ++ " \"" ++ file_path ++ "\" 2>&1"

/-- `FileManager.delete_file`: validate the path, refuse the two literal
workspace-root spellings, else execute `rm`. `execResult` is the engine's
`(exit_code, stdout, stderr)` for that command. Returns
`((success, error_bytes), executed_command?)`, where the second component
records the `rm` invocation (none if the call never reached the engine). -/
def delete_file (file_path : String) (recursive : Bool)
    (execResult : Int × List Nat × List Nat) : (Bool × List Nat) × Option String :=
  if (validate_file_path file_path).1 = false then
    ((false, strBytes (validate_file_path file_path).2), none)
  else if file_path = "/workspace" || file_path = "/workspace/" then
    ((false, strBytes "Cannot delete workspace root directory"), none)
  else
    let ec := execResult.1
    let stdout := execResult.2.1
    let stderr := execResult.2.2
    if ec ≠ 0 then
      ((false, if stdout ≠ [] then stdout
        else if stderr ≠ [] then stderr
        else strBytes "Failed to delete file"), some (rmCommand recursive file_path))
    else
      ((true, []), some (rmCommand recursive file_path))

/-! ## DockerManager (services/docker_manager.py)

Engine calls are modelled by oracle outcomes: each call's possible results
(success, a not-found error, any other engine error) are inputs to the
embedded function, which reproduces the source's exception handling. -/

/-- Outcome of a container/volume removal attempt at the engine: the
`get`/`remove(force=True)` pair succeeds, raises `NotFound`, or raises a
non-`NotFound` `APIError`. -/
inductive RemoveOutcome where
  | ok : RemoveOutcome
  | notFound : RemoveOutcome
  | apiError : String → RemoveOutcome
deriving DecidableEq

/-- `DockerManager.destroy_environment`: remove the container (a `NotFound`
is caught and only warned about), then the volume if a name was given (same
treatment); a non-`NotFound` `APIError` from either removal escapes the
inner handlers and is re-raised as an error. `volumeRemove` is `none` when
`volume_name` is `None`. -/
def destroy_environment (containerRemove : RemoveOutcome)
    (volumeRemove : Option RemoveOutcome) : Except String Bool :=
  match containerRemove with
  | .apiError m => .error ("Failed to destroy environment: " ++ m)
  | _ =>
    match volumeRemove with
    | some (.apiError m) => .error ("Failed to destroy environment: " ++ m)
    | _ => .ok true

/-- Outcome of the `network.disconnect(container, force=True)` call inside
`disable_network`. -/
inductive DisconnectOutcome where
  | ok : DisconnectOutcome
  | apiErrorNotConnected : DisconnectOutcome
  | apiErrorOther : String → DisconnectOutcome
  | otherError : String → DisconnectOutcome
deriving DecidableEq

/-- Outcome of a `client.containers.get` / `client.networks.get` lookup:
found, or some exception raised. -/
inductive LookupOutcome where
  | found : LookupOutcome
  | raised : String → LookupOutcome
deriving DecidableEq

/-- `DockerManager.disable_network`: look up the container and the network,
try to disconnect; an `APIError` saying "is not connected" is treated as
already-disabled, any other `APIError` is only warned about, and any
exception anywhere (lookups included) is swallowed by the outer handler,
which also returns `True`. -/
def disable_network (containerLookup networkLookup : LookupOutcome)
    (disconnect : DisconnectOutcome) : Bool :=
  match containerLookup with
  | .raised _ => true
  | .found =>
    match networkLookup with
    | .raised _ => true
    | .found =>
      match disconnect with
      | .ok => true
      | .apiErrorNotConnected => true
      | .apiErrorOther _ => true
      | .otherError _ => true

/-! ## PackageManager (services/package_manager.py)

`install_packages` is embedded with an explicit event trace (which engine
operations were invoked, in order) and an explicit account of the
container's network state, so that the always-disable cleanup is a theorem
about the trace. -/

/-- Engine operations `install_packages` can invoke on the container. -/
inductive PMEvent where
  | enableNet : PMEvent
  | execCmd : PMEvent
  | disableNet : PMEvent
deriving DecidableEq

/-- The `INSTALL_COMMANDS` template table (placeholder written via
code-point escapes for the braces). -/
def INSTALL_COMMANDS : List (String × String) :=
  [ ("npm", "npm install \x7bpackages\x7d"),
    ("yarn", "yarn add \x7bpackages\x7d"),
    ("pip", "pip install \x7bpackages\x7d"),
    ("pip3", "pip3 install \x7bpackages\x7d"),
    ("apt-get", "apt-get update && apt-get install -y \x7bpackages\x7d"),
    ("apk", "apk add \x7bpackages\x7d") ]

/-- The install command: the manager's template with the space-joined
package list substituted for the placeholder. -/
def installCommand (template : String) (packages : List String) : String :=
  template.replace "\x7bpackages\x7d" (String.intercalate " " packages)

/-- The message `install_packages` produces for the first invalid package. -/
def invalidPackageMsg (p : String) : String :=
  "Invalid package name \"" ++ p ++ "\": " ++ (validate_package_name p).2

/-- Result of one `install_packages` call: the returned
`(success, stdout, stderr)` triple, the ordered trace of engine operations
invoked on the container, whether the network was actually enabled at some
point during the call, and the network state when the call returns. -/
structure PMOutcome where
  result : Bool × String × String
  events : List PMEvent
  netEnabledDuring : Bool
  netFinal : Bool
deriving DecidableEq

/-- Physical effect of a `disable_network` call on a container whose
network is currently attached: the network is actually detached only when
both engine lookups succeed and the disconnect succeeds or reports
"is not connected"; every other failure is swallowed inside
`disable_network` (which still returns `True`, see `disable_network`) and
leaves the network attached. -/
def netAfterDisable (containerLookup networkLookup : LookupOutcome)
    (disconnect : DisconnectOutcome) : Bool :=
  match containerLookup, networkLookup, disconnect with
  | .found, .found, .ok => false
  | .found, .found, .apiErrorNotConnected => false
  | _, _, _ => true

/-- `PackageManager.install_packages`: validate the manager, validate every
package name (first failure aborts), look up the command template, enable
the network when requested (a failure there aborts with the network still
off), execute the install with the disable in a `finally` block, and wrap
any escaped exception. `enableOutcome` and `execOutcome` are the engine
oracles (`.error` means the call raised); `disableContainerLookup`,
`disableNetworkLookup` and `disconnect` are the engine oracles of the
`disable_network` call in the `finally` block — that call never raises
(its failures are swallowed, so the guarding `try/except` in the source
never fires), but the container's network is only actually detached when
the disconnect physically succeeds (`netAfterDisable`). The network starts
disabled (containers are created without network). -/
def install_packages (manager : String) (packages : List String)
    (enable_network : Bool) (enableOutcome : Except String Unit)
    (execOutcome : Except String (Int × String × String))
    (disableContainerLookup disableNetworkLookup : LookupOutcome)
    (disconnect : DisconnectOutcome) : PMOutcome :=
  if (validate_package_manager manager).1 = false then
    ⟨(false, "", (validate_package_manager manager).2), [], false, false⟩
  else
    match packages.find? (fun p => !(validate_package_name p).1) with
    | some p => ⟨(false, "", invalidPackageMsg p), [], false, false⟩
    | none =>
      match INSTALL_COMMANDS.find? (fun kv => kv.1 = manager) with
      | none => ⟨(false, "", "Unsupported package manager: " ++ manager), [], false, false⟩
      | some _ =>
        if enable_network then
          match enableOutcome with
          | .error e =>
              ⟨(false, "", "Failed to enable network: " ++ e), [.enableNet], false, false⟩
          | .ok _ =>
            let netEnd := netAfterDisable disableContainerLookup disableNetworkLookup
              disconnect
            match execOutcome with
            | .ok (ec, out, err) =>
                ⟨(ec = 0, out, err), [.enableNet, .execCmd, .disableNet], true, netEnd⟩
            | .error e =>
                ⟨(false, "", "Package installation failed: " ++ e),
                  [.enableNet, .execCmd, .disableNet], true, netEnd⟩
        else
          match execOutcome with
          | .ok (ec, out, err) => ⟨(ec = 0, out, err), [.execCmd], false, false⟩
          | .error e =>
              ⟨(false, "", "Package installation failed: " ++ e), [.execCmd], false, false⟩

/-! ## Route create_environment (routes/virtual_env.py)

The persisted record and the engine call are modelled with an event trace:
the database insert, the engine create, and the follow-up record update, in
the order the route performs them. -/

/-- The persisted `VirtualEnvironment` record fields the claims mention. -/
structure EnvRecordC where
  user_id : Nat
  name : String
  environment_type : String
  status : String
  container_id : Option String
  volume_name : Option String
deriving DecidableEq

/-- Persistence / engine steps of the create route, in invocation order. -/
inductive CreateEvent where
  | insertRecord : String → CreateEvent
  | engineCreate : CreateEvent
  | updateRecord : String → CreateEvent
deriving DecidableEq

/-- The allowed environment types of the create route. -/
def ENV_TYPES : List String := ["nodejs", "python", "fullstack", "cpp"]

/-- Result of the create route: ordered trace, the persisted record as it
stands when the route returns (`none` when validation failed before the
insert), and whether the HTTP response was a success. -/
structure CreateOutcome where
  events : List CreateEvent
  record : Option EnvRecordC
  httpOk : Bool
deriving DecidableEq

/-- `create_environment` (the POST /environments route): validate the name
and the type, insert the record with status `creating`, then call
`DockerManager.create_environment`; on success set `container_id`,
`volume_name` and status `stopped`, on an engine exception set status
`error` and keep the record. `engineResult` is the engine oracle. -/
def create_environment (uid : Nat) (name env_type : String)
    (engineResult : Except String (String × String)) : CreateOutcome :=
  if (validate_environment_name name).1 = false then
    ⟨[], none, false⟩
  else if !ENV_TYPES.contains env_type then
    ⟨[], none, false⟩
  else
    let env0 : EnvRecordC := ⟨uid, name, env_type, "creating", none, none⟩
    match engineResult with
    | .ok (cid, vol) =>
        ⟨[.insertRecord "creating", .engineCreate, .updateRecord "stopped"],
          some ⟨uid, name, env_type, "stopped", some cid, some vol⟩,
          true⟩
    | .error _ =>
        ⟨[.insertRecord "creating", .engineCreate, .updateRecord "error"],
          some { env0 with status := "error" }, false⟩

/-! ## EnvironmentCleanup (utils/environment_cleanup.py) -/

/-- The fields of a `VirtualEnvironment` row that `cleanup_idle_environments`
reads and writes. Timestamps are minutes on an integer clock. -/
structure EnvRow where
  id : Nat
  container_id : String
  status : String
  last_accessed_at : Int
deriving DecidableEq

/-- `EnvironmentCleanup.cleanup_idle_environments`: compute the threshold
`now - idle_minutes`, select the rows with status `running` accessed
strictly before it, and stop each (on a successful engine stop the row's
status becomes `stopped`; a raised stop leaves the row untouched). `stopOk`
is the engine oracle per container. Returns the updated table and the
number of environments stopped. -/
def cleanup_idle_environments (now : Int) (idle_minutes : Int)
    (stopOk : String → Bool) (envs : List EnvRow) : List EnvRow × Nat :=
  let threshold := now - idle_minutes
  let updated := envs.map (fun e =>
    if e.status = "running" ∧ e.last_accessed_at < threshold then
      if stopOk e.container_id then { e with status := "stopped" } else e
    else e)
  let stopped := envs.countP (fun e =>
    e.status = "running" ∧ e.last_accessed_at < threshold ∧ stopOk e.container_id)
  (updated, stopped)

/-! ## Claims -/

/-- C10: `disable_network` returns `True` for every input — whether the
container or network lookup raises, the disconnect succeeds, the engine
reports "is not connected", or any other error occurs, the error is
swallowed and the caller can never observe a failure through the return
value. -/
theorem claim_C10_disable_network_always_true
    (containerLookup networkLookup : LookupOutcome) (disconnect : DisconnectOutcome) :
    disable_network containerLookup networkLookup disconnect = true := by
  cases containerLookup <;> cases networkLookup <;> cases disconnect <;> rfl

/-- C6: `destroy_environment` treats a missing container or volume
(`NotFound`) as success — any combination of successful or not-found
removals returns `True` — while a non-`NotFound` engine error during either
removal propagates as an error. -/
theorem claim_C6_destroy_already_gone_is_success
    (containerRemove : RemoveOutcome) (volumeRemove : Option RemoveOutcome) :
    ((∀ m, containerRemove ≠ .apiError m) → (∀ m, volumeRemove ≠ some (.apiError m)) →
      destroy_environment containerRemove volumeRemove = .ok true)
    ∧ (∀ m, containerRemove = .apiError m →
      destroy_environment containerRemove volumeRemove
        = .error ("Failed to destroy environment: " ++ m))
    ∧ (∀ m, (∀ m', containerRemove ≠ .apiError m') →
      volumeRemove = some (.apiError m) →
      destroy_environment containerRemove volumeRemove
        = .error ("Failed to destroy environment: " ++ m)) := by
  refine ⟨?_, ?_, ?_⟩
  · intro hc hv
    cases containerRemove with
    | apiError m => exact absurd rfl (hc m)
    | ok =>
      match volumeRemove with
      | none => rfl
      | some .ok => rfl
      | some .notFound => rfl
      | some (.apiError m) => exact absurd rfl (hv m)
    | notFound =>
      match volumeRemove with
      | none => rfl
      | some .ok => rfl
      | some .notFound => rfl
      | some (.apiError m) => exact absurd rfl (hv m)
  · intro m hm
    subst hm
    rfl
  · intro m hc hv
    subst hv
    cases containerRemove with
    | apiError m' => exact absurd rfl (hc m')
    | ok => rfl
    | notFound => rfl

/-- C6 witness: destroying an environment whose container and volume are
both already gone at the engine returns success. -/
theorem claim_C6_witness :
    destroy_environment .notFound (some .notFound) = .ok true :=
  (claim_C6_destroy_already_gone_is_success .notFound (some .notFound)).1
    (fun _ h => RemoveOutcome.noConfusion h)
    (fun _ h => by injection h with h'; exact RemoveOutcome.noConfusion h')

/-- C2 counterexample: the claim's "network is never left enabled after the
call completes" fails when the engine's disconnect fails — a successful pip
install whose `finally`-block disconnect raises a non-"is not connected"
`APIError` returns with the disable operation invoked (and unobservably
failed: `disable_network` still returns `True`) but the network still
enabled. -/
theorem claim_C2_counterexample :
    (install_packages "pip" ["requests"] true (.ok ()) (.ok (0, "ok", ""))
        .found .found (.apiErrorOther "disconnect failed")).netEnabledDuring = true
    ∧ PMEvent.disableNet ∈ (install_packages "pip" ["requests"] true (.ok ())
        (.ok (0, "ok", "")) .found .found (.apiErrorOther "disconnect failed")).events
    ∧ (install_packages "pip" ["requests"] true (.ok ()) (.ok (0, "ok", ""))
        .found .found (.apiErrorOther "disconnect failed")).netFinal = true
    ∧ disable_network .found .found (.apiErrorOther "disconnect failed") = true :=
  ⟨by decide, by decide, by decide, by decide⟩

/-- C2 (amended): whenever the network was enabled during an
`install_packages` call, the network-disable operation is invoked on the
container before the call returns — under success, failure, or an exception
of the execution step — and the network is actually disabled at return
provided the engine's disconnect call succeeds (or reports the network
already disconnected); if the disconnect fails, `disable_network` swallows
the error and the call returns with the network still enabled. -/
theorem claim_C2_disable_invoked_net_off_if_disconnect_ok (manager : String)
    (packages : List String) (enable_network : Bool)
    (enableOutcome : Except String Unit)
    (execOutcome : Except String (Int × String × String))
    (disableContainerLookup disableNetworkLookup : LookupOutcome)
    (disconnect : DisconnectOutcome) :
    ((install_packages manager packages enable_network enableOutcome execOutcome
        disableContainerLookup disableNetworkLookup disconnect).netEnabledDuring = true →
      PMEvent.disableNet ∈ (install_packages manager packages enable_network
        enableOutcome execOutcome disableContainerLookup disableNetworkLookup
        disconnect).events)
    ∧ (disableContainerLookup = .found → disableNetworkLookup = .found →
      (disconnect = .ok ∨ disconnect = .apiErrorNotConnected) →
      (install_packages manager packages enable_network enableOutcome execOutcome
        disableContainerLookup disableNetworkLookup disconnect).netFinal = false) := by
  have hnet : disableContainerLookup = .found → disableNetworkLookup = .found →
      (disconnect = .ok ∨ disconnect = .apiErrorNotConnected) →
      netAfterDisable disableContainerLookup disableNetworkLookup disconnect = false := by
    intro hcl hnl hd
    subst hcl
    subst hnl
    rcases hd with rfl | rfl <;> rfl
  unfold install_packages
  split
  · exact ⟨(by intro h; cases h), fun _ _ _ => rfl⟩
  · split
    · exact ⟨(by intro h; cases h), fun _ _ _ => rfl⟩
    · split
      · exact ⟨(by intro h; cases h), fun _ _ _ => rfl⟩
      · split
        · match enableOutcome with
          | .error e => exact ⟨(by intro h; cases h), fun _ _ _ => rfl⟩
          | .ok _ =>
            match execOutcome with
            | .ok (ec, out, err) => exact ⟨(by intro _; simp), hnet⟩
            | .error e => exact ⟨(by intro _; simp), hnet⟩
        · match execOutcome with
          | .ok (ec, out, err) => exact ⟨(by intro h; cases h), fun _ _ _ => rfl⟩
          | .error e => exact ⟨(by intro h; cases h), fun _ _ _ => rfl⟩

/-- C2 witness: a concrete successful pip install whose disconnect
physically succeeds has `disableNet` in its trace and ends with the
network off. -/
theorem claim_C2_witness :
    PMEvent.disableNet
      ∈ (install_packages "pip" ["requests"] true (.ok ()) (.ok (0, "ok", ""))
          .found .found .ok).events
    ∧ (install_packages "pip" ["requests"] true (.ok ()) (.ok (0, "ok", ""))
        .found .found .ok).netFinal = false :=
  ⟨(claim_C2_disable_invoked_net_off_if_disconnect_ok "pip" ["requests"] true (.ok ())
      (.ok (0, "ok", "")) .found .found .ok).1 (by decide),
    (claim_C2_disable_invoked_net_off_if_disconnect_ok "pip" ["requests"] true (.ok ())
      (.ok (0, "ok", "")) .found .found .ok).2 rfl rfl (Or.inl rfl)⟩

/-- C5: if any package name in the list fails `validate_package_name`, then
`install_packages` fails, no engine operation (network enable, command
execution, network disable) is ever invoked on the container, and — when the
manager itself is on the allow-list — the failure message names the (first)
invalid package. -/
theorem claim_C5_invalid_package_aborts_before_container (manager : String)
    (packages : List String) (enable_network : Bool)
    (enableOutcome : Except String Unit)
    (execOutcome : Except String (Int × String × String))
    (disableContainerLookup disableNetworkLookup : LookupOutcome)
    (disconnect : DisconnectOutcome)
    (p : String) (hp : p ∈ packages)
    (hinv : (validate_package_name p).1 = false) :
    (install_packages manager packages enable_network enableOutcome execOutcome
        disableContainerLookup disableNetworkLookup disconnect).result.1
      = false
    ∧ (install_packages manager packages enable_network enableOutcome execOutcome
        disableContainerLookup disableNetworkLookup disconnect).events
      = []
    ∧ ((validate_package_manager manager).1 = true →
        ∃ q ∈ packages, (validate_package_name q).1 = false
          ∧ (install_packages manager packages enable_network enableOutcome
              execOutcome disableContainerLookup disableNetworkLookup
              disconnect).result.2.2 = invalidPackageMsg q) := by
  have hfind : (packages.find? (fun q => !(validate_package_name q).1)).isSome := by
    rw [List.find?_isSome]
    exact ⟨p, hp, by simp [hinv]⟩
  unfold install_packages
  split
  · next hmgr =>
    refine ⟨rfl, rfl, ?_⟩
    intro hmgr'
    rw [hmgr'] at hmgr
    cases hmgr
  · split
    · next q hq =>
      refine ⟨rfl, rfl, ?_⟩
      intro _
      refine ⟨q, List.mem_of_find?_eq_some hq, ?_, rfl⟩
      have := List.find?_some hq
      simpa using this
    · next hq =>
      rw [hq] at hfind
      cases hfind

/-- C5 witness: the spec scenario — `install_packages(manager="pip",
packages=["requests; rm -rf /"])` is rejected at validation with a message
naming the package, and the engine trace is empty. -/
theorem claim_C5_witness :
    (install_packages "pip" ["requests; rm -rf /"] true (.ok ())
        (.ok (0, "", "")) .found .found .ok).result.1 = false
    ∧ (install_packages "pip" ["requests; rm -rf /"] true (.ok ())
        (.ok (0, "", "")) .found .found .ok).events = [] :=
  ⟨(claim_C5_invalid_package_aborts_before_container "pip" ["requests; rm -rf /"] true
      (.ok ()) (.ok (0, "", "")) .found .found .ok "requests; rm -rf /"
      (by decide) (by decide)).1,
    (claim_C5_invalid_package_aborts_before_container "pip" ["requests; rm -rf /"] true
      (.ok ()) (.ok (0, "", "")) .found .found .ok "requests; rm -rf /"
      (by decide) (by decide)).2.1⟩

/-- C7: past validation, the create route inserts the record with status
`creating` before the engine is called (the trace starts with the insert,
then the engine create); if the engine call fails the record is kept with
status `error` (not `destroyed`, not removed) and its ownership fields
intact; on success `container_id` and `volume_name` are set and the status
becomes `stopped`. -/
theorem claim_C7_record_first_then_error_or_stopped (uid : Nat)
    (name env_type : String) (engineResult : Except String (String × String))
    (hname : (validate_environment_name name).1 = true)
    (htype : ENV_TYPES.contains env_type = true) :
    (∃ rest, (create_environment uid name env_type engineResult).events
        = CreateEvent.insertRecord "creating" :: CreateEvent.engineCreate :: rest)
    ∧ (∀ e, engineResult = .error e →
        (create_environment uid name env_type engineResult).record
          = some ⟨uid, name, env_type, "error", none, none⟩)
    ∧ (∀ cid vol, engineResult = .ok (cid, vol) →
        (create_environment uid name env_type engineResult).record
          = some ⟨uid, name, env_type, "stopped", some cid, some vol⟩) := by
  unfold create_environment
  rw [hname, htype]
  simp only [Bool.true_eq_false, Bool.not_true, Bool.false_eq_true, if_false]
  cases engineResult with
  | ok pr =>
    obtain ⟨cid, vol⟩ := pr
    refine ⟨⟨[CreateEvent.updateRecord "stopped"], by simp⟩, ?_, ?_⟩
    · intro e he
      cases he
    · intro cid' vol' h
      injection h with h'
      injection h' with h1 h2
      subst h1
      subst h2
      simp
  | error e =>
    refine ⟨⟨[CreateEvent.updateRecord "error"], by simp⟩, ?_, ?_⟩
    · intro e' _
      simp
    · intro cid vol h
      cases h

/-- C7 witness: creating a `python` environment named `test-env` whose
engine call fails leaves a persisted record with status `error` owned by
the creating user. -/
theorem claim_C7_witness :
    (create_environment 1 "test-env" "python" (.error "pull failed")).record
      = some ⟨1, "test-env", "python", "error", none, none⟩ :=
  (claim_C7_record_first_then_error_or_stopped 1 "test-env" "python"
    (.error "pull failed") (by decide) (by decide)).2.1 "pull failed" rfl

/-- C8: with a cooperating engine, `cleanup_idle_environments` with a
30-minute threshold maps the table to itself except that exactly the rows
with status `running` whose `last_accessed_at` is strictly older than
`now - 30` get status `stopped`; rows in any other status, and running rows
accessed at or after the threshold, are untouched. -/
theorem claim_C8_cleanup_idle_exactly_threshold (now : Int)
    (stopOk : String → Bool) (envs : List EnvRow)
    (hstop : ∀ c, stopOk c = true) :
    (cleanup_idle_environments now 30 stopOk envs).1
      = envs.map (fun e =>
          if e.status = "running" ∧ e.last_accessed_at < now - 30 then
            { e with status := "stopped" }
          else e) := by
  simp [cleanup_idle_environments, hstop]

/-- C8 witness: at `now = 100` (minutes), a running row last accessed 31
minutes ago is stopped, a running row last accessed 29 minutes ago is
untouched, and a non-running row is untouched. -/
theorem claim_C8_witness :
    (cleanup_idle_environments 100 30 (fun _ => true)
        [⟨1, "c1", "running", 69⟩, ⟨2, "c2", "running", 71⟩, ⟨3, "c3", "stopped", 1⟩]).1
      = [⟨1, "c1", "stopped", 69⟩, ⟨2, "c2", "running", 71⟩, ⟨3, "c3", "stopped", 1⟩] := by
  rw [claim_C8_cleanup_idle_exactly_threshold 100 (fun _ => true)
    [⟨1, "c1", "running", 69⟩, ⟨2, "c2", "running", 71⟩, ⟨3, "c3", "stopped", 1⟩]
    (fun _ => rfl)]
  decide

/-- C9: the workspace-root guard of `delete_file` compares the raw path
against exactly the two spellings `/workspace` and `/workspace/`: every
other path accepted by `validate_file_path` — including `/workspace/.`,
`/workspace//` and `/workspace/./`, which denote the root — reaches the
engine with an `rm` command, while the two literal spellings are refused
without touching the engine. -/
theorem claim_C9_root_guard_literal (file_path : String) (recursive : Bool)
    (execResult : Int × List Nat × List Nat) :
    ((validate_file_path file_path).1 = true → file_path ≠ "/workspace" →
      file_path ≠ "/workspace/" →
      (delete_file file_path recursive execResult).2
        = some (rmCommand recursive file_path))
    ∧ (file_path = "/workspace" ∨ file_path = "/workspace/" →
      (delete_file file_path recursive execResult).2 = none
        ∧ (delete_file file_path recursive execResult).1
            = (false, strBytes "Cannot delete workspace root directory")) := by
  constructor
  · intro hval h1 h2
    unfold delete_file
    rw [hval]
    simp only [Bool.true_eq_false, if_false]
    rw [if_neg (by simp [h1, h2])]
    split <;> rfl
  · intro h
    have hval : (validate_file_path file_path).1 = true := by
      rcases h with rfl | rfl <;> decide
    unfold delete_file
    rw [hval]
    simp only [Bool.true_eq_false, if_false]
    rw [if_pos (by rcases h with rfl | rfl <;> simp)]
    exact ⟨rfl, rfl⟩

/-- C9 witness: `/workspace/.` passes path validation, escapes the root
guard, and `delete_file` proceeds to execute the `rm` command on it. -/
theorem claim_C9_witness :
    (delete_file "/workspace/." true (0, [], [])).2
      = some (rmCommand true "/workspace/.") :=
  (claim_C9_root_guard_literal "/workspace/." true (0, [], [])).1
    (by decide) (by decide) (by decide)

/-- A package name `validate_package_name` accepts contains no `..`, no
slash, no backslash, and none of the dangerous shell metacharacters (every
rejecting branch of the source returns before the accepting one). -/
theorem validate_package_name_true_clean (name : String)
    (h : (validate_package_name name).1 = true) :
    containsSub ['.', '.'] name.toList = false
    ∧ name.toList.contains '/' = false
    ∧ name.toList.contains '\\' = false
    ∧ ∀ c ∈ PKG_DANGEROUS_CHARS, name.toList.contains c = false := by
  unfold validate_package_name at h
  split at h
  · cases h
  · split at h
    · cases h
    · split at h
      · cases h
      · next hfind =>
        split at h
        · cases h
        · next htrav =>
          rw [List.find?_eq_none] at hfind
          simp only [Bool.or_eq_true, not_or, Bool.not_eq_true] at htrav
          obtain ⟨⟨ht1, ht2⟩, ht3⟩ := htrav
          exact ⟨ht1, ht2, ht3, fun c hc => by simpa using hfind c hc⟩

/-- C4: every package name containing `..`, `/` or `\` (so in particular
every scoped npm name `@scope/name`, despite the format regex permitting
`/`), and every name containing one of the shell metacharacters
`& | ; $ backquote ( ) < > newline carriage-return`, is rejected by
`validate_package_name`. -/
theorem claim_C4_package_name_rejections (name : String)
    (h : containsSub ['.', '.'] name.toList = true
      ∨ name.toList.contains '/' = true
      ∨ name.toList.contains '\\' = true
      ∨ ∃ c ∈ PKG_DANGEROUS_CHARS, name.toList.contains c = true) :
    (validate_package_name name).1 = false := by
  cases hb : (validate_package_name name).1 with
  | false => rfl
  | true =>
    obtain ⟨h1, h2, h3, h4⟩ := validate_package_name_true_clean name hb
    rcases h with h | h | h | ⟨c, hc, h⟩
    · rw [h1] at h; cases h
    · rw [h2] at h; cases h
    · rw [h3] at h; cases h
    · rw [h4 c hc] at h; cases h

/-- C4 witness: the scoped npm name `@scope/name` is rejected, and by the
explicit path-traversal check (not by the format regex, which allows `/`). -/
theorem claim_C4_witness :
    (validate_package_name "@scope/name").1 = false
    ∧ (validate_package_name "@scope/name").2
        = "Package name contains path traversal characters"
    ∧ ("@scope/name".toList.all isPkgFormatChar) = true :=
  ⟨claim_C4_package_name_rejections "@scope/name" (Or.inr (Or.inl (by decide))),
    by decide, by decide⟩

/-- C3: any command matched by some pattern of the fixed dangerous
deny-list is rejected by `validate_command` with severity `blocked` — never
`safe` or `warning` — whatever the rest of the command looks like (case and
surrounding whitespace included, since the hypothesis quantifies over all
matching commands). -/
theorem claim_C3_dangerous_patterns_blocked (command : String)
    (h : ∃ p ∈ DANGEROUS_PATTERNS, reSearch p.2 command = true) :
    (validate_command command).1 = false
    ∧ (validate_command command).2.1 = "blocked" := by
  have hs : (DANGEROUS_PATTERNS.find? (fun p => reSearch p.2 command)).isSome := by
    rw [List.find?_isSome]
    exact h
  unfold validate_command
  split
  · exact ⟨rfl, rfl⟩
  · split
    · exact ⟨rfl, rfl⟩
    · split
      · exact ⟨rfl, rfl⟩
      · next hnone =>
        rw [hnone] at hs
        cases hs

/-- C3 witness: `validate_command "SUDO rm -rf /"` is blocked (the
case-insensitive sudo/su pattern matches despite the upper case). -/
theorem claim_C3_witness :
    (validate_command "SUDO rm -rf /").1 = false
    ∧ (validate_command "SUDO rm -rf /").2.1 = "blocked" :=
  claim_C3_dangerous_patterns_blocked "SUDO rm -rf /"
    ⟨("\\b(sudo|su)\\b",
        RE.seq RE.wb (RE.seq (RE.alt (rstr "sudo") (rstr "su")) RE.wb)),
      by decide, by decide⟩

/-- C1 counterexample: the claim fails for content that begins with
`ERROR:` — writing `"ERROR: boom"` to a valid path succeeds, but the
subsequent `read_file` mistakes the file's own first bytes for the
failure sentinel and returns failure with empty content instead of the
written bytes. -/
theorem claim_C1_counterexample :
    (write_file FS.empty "/workspace/a.txt" (strBytes "ERROR: boom") false).1.1 = true
    ∧ (read_file (write_file FS.empty "/workspace/a.txt" (strBytes "ERROR: boom")
        false).2 "/workspace/a.txt").1 = false
    ∧ (read_file (write_file FS.empty "/workspace/a.txt" (strBytes "ERROR: boom")
        false).2 "/workspace/a.txt").2.1 = [] :=
  ⟨by decide, by decide, by decide⟩

/-- C1 (amended): for every path accepted by `validate_file_path` and every
content accepted by `validate_file_content` (size cap, no executable magic,
no dangerous extension) whose bytes do not start with `ERROR:`,
`write_file` followed by `read_file` on the same path returns success with
exactly the bytes written — quotes, backticks, newlines and non-ASCII text
included, by the base64 round-trip. -/
theorem claim_C1_roundtrip_amended (fs : FS) (path : String) (content : List Nat)
    (hbytes : ∀ b ∈ content, b < 256)
    (hpath : (validate_file_path path).1 = true)
    (hcontent : (validate_file_content content (basename path)).1 = true)
    (herr : ERROR_MARKER.isPrefixOf content = false) :
    read_file (write_file fs path content false).2 path = (true, content, []) := by
  have hdec : b64Decode (b64Encode content) = content := b64_roundtrip content hbytes
  unfold write_file read_file
  rw [hpath, hcontent]
  simp only [Bool.true_eq_false, Bool.false_eq_true, if_false]
  unfold FS.write
  rw [hdec]
  simp [herr]

/-- C1 witness: a concrete round trip through a fresh filesystem for
content with quotes, a backtick, a newline and a non-ASCII character. -/
theorem claim_C1_witness :
    read_file (write_file FS.empty "/workspace/hello.txt"
        (strBytes "héllo \"`æ\n") false).2 "/workspace/hello.txt"
      = (true, strBytes "héllo \"`æ\n", []) :=
  claim_C1_roundtrip_amended FS.empty "/workspace/hello.txt"
    (strBytes "héllo \"`æ\n") (by decide) (by decide) (by decide) (by decide)

end Roolts
